import Mathlib

/-! Verification of the authentication backend (src/api/routes/auth):
token issuance and decoding, registration, email verification, login,
refresh, and current-user resolution.  Times and lifetimes are in
seconds; the external Token Codec (python-jose) and Credential Hasher
(passlib) primitives, and the User model, are modelled from the spec
as noted on each definition. -/

/-- Modelled from the spec: a User record of the external User Store
(the neomodel `User` model in src/api/models/social.py is not under
src/): opaque unique id, username, email, password hash, and a
verified flag defaulting to false.  Field names follow their use in
auth.py and services.py. -/
structure User where
  uid : String
  username : String
  email : String
  hashed_password : String
  is_verified : Bool := false
deriving Repr, DecidableEq

/-- The claims this program ever writes into or reads out of a JWT
payload: `sub`, `username` and `type` (each possibly absent), and the
`exp` timestamp in seconds. -/
structure Claims where
  sub : Option String
  username : Option String
  type : Option String
  exp : Nat
deriving Repr, DecidableEq

/-- Modelled from the spec: a token as seen by the Token Codec
(python-jose, not in src/): either a compact string validly signed
with SECRET_KEY, identified with the claims it carries, or a
malformed / badly-signed string. -/
inductive Token where
  | signed (payload : Claims)
  | malformed
deriving Repr, DecidableEq

/-- Errors raised by the Token Codec; every caller in src/ catches the
whole family (`except JWTError`). -/
inductive JWTError where
  | invalid
  | expiredSignature
deriving Repr, DecidableEq

/-- Modelled from the spec: jwt.decode (Token Codec, python-jose, not
in src/): verifies signature and expiry against the current time at
decode; fails on signature mismatch or malformed structure, and on
expiry with no grace window — the token is rejected as soon as the
current time exceeds `exp`. -/
def jwtDecode (token : Token) (now : Nat) : Except JWTError Claims :=
  match token with
  | .malformed => .error .invalid
  | .signed c => if c.exp < now then .error .expiredSignature else .ok c

/-- The payload dict this program passes to create_token: optional
`sub` and `username` entries. -/
structure Payload where
  sub : Option String := none
  username : Option String := none
deriving Repr, DecidableEq

/-- services.py create_token: copy the data, add `exp = now +
expires_delta` and `type = token_type`, and sign. -/
def create_token (data : Payload) (expires_delta : Nat) (token_type : String) (now : Nat) : Token :=
  Token.signed { sub := data.sub, username := data.username, type := some token_type, exp := now + expires_delta }

/-- The env-derived module constants ACCESS_TOKEN_EXPIRE_MINUTES and
REFRESH_TOKEN_EXPIRE_DAYS, read once at process start. -/
structure Config where
  accessTokenExpireMinutes : Nat
  refreshTokenExpireDays : Nat
deriving Repr, DecidableEq

/-- services.py create_access_token: kind "access", default lifetime
ACCESS_TOKEN_EXPIRE_MINUTES minutes. -/
def create_access_token (cfg : Config) (data : Payload) (now : Nat) : Token :=
  create_token data (cfg.accessTokenExpireMinutes * 60) "access" now

/-- services.py create_refresh_token: kind "refresh", default lifetime
REFRESH_TOKEN_EXPIRE_DAYS days. -/
def create_refresh_token (cfg : Config) (data : Payload) (now : Nat) : Token :=
  create_token data (cfg.refreshTokenExpireDays * 86400) "refresh" now

/-- services.py create_verification_token: sub = email, 24 hours,
kind "email_verification". -/
def create_verification_token (email : String) (now : Nat) : Token :=
  create_token { sub := some email } (24 * 3600) "email_verification" now

/-- services.py create_password_reset_token: sub = email, 15 minutes,
kind "password_reset". -/
def create_password_reset_token (email : String) (now : Nat) : Token :=
  create_token { sub := some email } (15 * 60) "password_reset" now

/-- Python `int(x)` applied to `os.environ.get(name)`: raises
TypeError when the variable is absent (get returns None), ValueError
on a non-numeric string, otherwise the parsed integer. -/
def pyIntOfEnv (v : Option String) : Except String Int :=
  match v with
  | none => .error "TypeError: int() argument must be a string, not NoneType"
  | some s =>
    match s.toInt? with
    | some n => .ok n
    | none => .error "ValueError: invalid literal for int()"

/-- services.py line 29: `int(os.environ.get("ACCESS_TOKEN_EXPIRE_MINUTES")) or 30`.
Python `or` yields 30 exactly when the left operand is falsy (0);
int() is applied before `or`, so it sees None when the variable is
absent. -/
def access_token_expire_minutes (env : Option String) : Except String Int :=
  (pyIntOfEnv env).map (fun n => if n = 0 then 30 else n)

/-- services.py line 30: `int(os.environ.get("REFRESH_TOKEN_EXPIRE_DAYS")) or 7`. -/
def refresh_token_expire_days (env : Option String) : Except String Int :=
  (pyIntOfEnv env).map (fun n => if n = 0 then 7 else n)

/-- Modelled from the spec: the digest computed by the Credential
Hasher primitive (passlib CryptContext with the bcrypt scheme, not in
src/) from a salt and a password.  A stand-in: only hash
well-formedness and round-tripping matter to the claims. -/
def mixDigest (salt password : String) : String :=
  salt ++ "|" ++ password

/-- Splitting a character list on a separator character (structural
helper for the hash format). -/
def splitOnChar (c : Char) : List Char → List (List Char)
  | [] => [[]]
  | x :: xs =>
    match splitOnChar c xs with
    | [] => if x == c then [[], []] else [[x]]
    | y :: ys => if x == c then [] :: y :: ys else (x :: y) :: ys

/-- Modelled from the spec: recognizing a well-formed hash of the
configured scheme: a scheme tag, a salt and a digest, "$"-separated. -/
def parseHash (h : String) : Option (String × String) :=
  match splitOnChar '$' h.data with
  | [tag, salt, digest] =>
    if tag == "bcrypt".data then some (String.mk salt, String.mk digest) else none
  | _ => none

/-- A string is a well-formed hash of the configured scheme when the
primitive can parse it. -/
def isWellFormedHash (h : String) : Bool :=
  (parseHash h).isSome

/-- services.py get_password_hash: hash a plain password via the
primitive (salt chosen by the primitive; fixed here, no claim depends
on it). -/
def get_password_hash (password : String) : String :=
  "bcrypt$" ++ "salt0" ++ "$" ++ mixDigest "salt0" password

/-- services.py verify_password: pwd_context.verify — per the spec
contract of the primitive, a malformed hash yields false rather than
an error. -/
def verify_password (plain_password hashed_password : String) : Bool :=
  match parseHash hashed_password with
  | some (salt, digest) => digest == mixDigest salt plain_password
  | none => false

/-- An HTTPException as raised by the handlers: status code and detail
message (the WWW-Authenticate header, where set, is a constant and
identical on every 401 of the same handler). -/
structure HTTPError where
  statusCode : Nat
  detail : String
deriving Repr, DecidableEq

def invalid_token_error : HTTPError := { statusCode := 401, detail := "Invalid token" }

def credentials_exception : HTTPError := { statusCode := 401, detail := "Could not validate credentials" }

def invalid_credentials_error : HTTPError := { statusCode := 401, detail := "Incorrect identifier or password" }

def email_not_verified_error : HTTPError := { statusCode := 401, detail := "Email not verified" }

def invalid_refresh_error : HTTPError := { statusCode := 401, detail := "Invalid refresh token" }

def user_not_found_error : HTTPError := { statusCode := 404, detail := "User not found" }

def username_taken_error : HTTPError := { statusCode := 400, detail := "Username already taken" }

/-- User.nodes.get_or_none(username=...): the user with that username,
if any (usernames are unique; first match in the store list). -/
def get_by_username (store : List User) (username : String) : Option User :=
  store.find? (fun u => u.username == username)

/-- User.nodes.get_or_none(email=...): the user with that email, if
any. -/
def get_by_email (store : List User) (email : String) : Option User :=
  store.find? (fun u => u.email == email)

/-- services.py verify_email_token: decode, read `sub`; 401 "Invalid
token" on any JWTError or when `sub` is absent.  The `type` claim is
not read. -/
def verify_email_token (token : Token) (now : Nat) : Except HTTPError String :=
  match jwtDecode token now with
  | .error _ => .error invalid_token_error
  | .ok payload =>
    match payload.sub with
    | none => .error invalid_token_error
    | some sub => .ok sub

/-- services.py verify_password_reset_token: decode, read `sub`; 401
"Invalid token" on any JWTError or when `sub` is absent. -/
def verify_password_reset_token (token : Token) (now : Nat) : Except HTTPError String :=
  match jwtDecode token now with
  | .error _ => .error invalid_token_error
  | .ok payload =>
    match payload.sub with
    | none => .error invalid_token_error
    | some sub => .ok sub

/-- services.py get_current_user: decode, read `username`, look the
user up by username; the same credentials_exception on any JWTError,
missing `username`, or unknown user.  The `type` claim is not read. -/
def get_current_user (token : Token) (store : List User) (now : Nat) : Except HTTPError User :=
  match jwtDecode token now with
  | .error _ => .error credentials_exception
  | .ok payload =>
    match payload.username with
    | none => .error credentials_exception
    | some username =>
      match get_by_username store username with
      | none => .error credentials_exception
      | some user => .ok user

/-- The emails this subsystem dispatches via the Mail Dispatcher. -/
inductive SentEmail where
  | verification (email username : String) (token : Token)
  | warning (email username : String)
  | passwordReset (email username : String) (token : Token)
deriving Repr, DecidableEq

/-- The response body of a successful registration. -/
structure RegisterResponse where
  message : String
  email : String
deriving Repr, DecidableEq

def registration_success_message : String :=
  "User registration successful, please check your email"

/-- Outcome of the /register handler: the HTTP response, the store
after the call, and the emails dispatched during it. -/
structure RegisterOutcome where
  response : Except HTTPError RegisterResponse
  store : List User
  sent : List SentEmail
deriving Repr

/-- The /register form. -/
structure RegistrationForm where
  username : String
  email : String
  password : String
deriving Repr, DecidableEq

/-- Modelled from the spec: the opaque unique id the User Store
assigns to a freshly created user (neomodel-generated, not in src/). -/
def freshUid (store : List User) : String :=
  "uid-" ++ toString store.length

/-- auth.py register_user: 400 if the username is taken; if the email
is taken, send a warning email and return the success message without
creating anyone; otherwise create the user (unverified), and send a
verification email carrying a fresh email_verification token. -/
def register_user (form : RegistrationForm) (store : List User) (now : Nat) : RegisterOutcome :=
  if (get_by_username store form.username).isSome then
    { response := .error username_taken_error, store := store, sent := [] }
  else if (get_by_email store form.email).isSome then
    { response := .ok { message := registration_success_message, email := form.email },
      store := store,
      sent := [SentEmail.warning form.email form.username] }
  else
    let user : User :=
      { uid := freshUid store, username := form.username, email := form.email,
        hashed_password := get_password_hash form.password, is_verified := false }
    let token := create_verification_token user.email now
    { response := .ok { message := registration_success_message, email := form.email },
      store := store ++ [user],
      sent := [SentEmail.verification user.email user.username token] }

/-- user.is_verified = True; await user.save(): persist the verified
flag on the (unique) user with this email. -/
def save_verified (store : List User) (email : String) : List User :=
  match store with
  | [] => []
  | u :: rest =>
    if u.email == email then { u with is_verified := true } :: rest
    else u :: save_verified rest email

def email_verified_message : String := "Email verified, you can now login"

/-- Outcome of the /verify/{token} handler: response and resulting
store. -/
structure VerifyOutcome where
  response : Except HTTPError String
  store : List User
deriving Repr

/-- auth.py verify_email: decode the token via verify_email_token,
resolve the user by the email in `sub` (404 if none), set verified and
persist, return the success message. -/
def verify_email (token : Token) (store : List User) (now : Nat) : VerifyOutcome :=
  match verify_email_token token now with
  | .error e => { response := .error e, store := store }
  | .ok email =>
    match get_by_email store email with
    | none => { response := .error user_not_found_error, store := store }
    | some _ =>
      { response := .ok email_verified_message, store := save_verified store email }

/-- The /token and /refresh response body. -/
structure TokenPair where
  access_token : Token
  refresh_token : Token
  token_type : String
deriving Repr, DecidableEq

/-- The OAuth2 password form: identifier (username or email) and
password. -/
structure LoginForm where
  username : String
  password : String
deriving Repr, DecidableEq

/-- auth.py login lines 91-95: if the identifier contains "@" look up
by email, otherwise by username. -/
def lookup_login_user (store : List User) (identifier : String) : Option User :=
  if identifier.data.contains '@' then get_by_email store identifier
  else get_by_username store identifier

/-- auth.py login_for_access_token: one 401 for both a missing user
and a wrong password; 401 "Email not verified" for a correct but
unverified account; otherwise issue an access/refresh pair keyed on
uid and username. -/
def login_for_access_token (cfg : Config) (form : LoginForm) (store : List User) (now : Nat) :
    Except HTTPError TokenPair :=
  match lookup_login_user store form.username with
  | none => .error invalid_credentials_error
  | some user =>
    if verify_password form.password user.hashed_password then
      if user.is_verified then
        let data : Payload := { sub := some user.uid, username := some user.username }
        .ok { access_token := create_access_token cfg data now,
              refresh_token := create_refresh_token cfg data now,
              token_type := "bearer" }
      else .error email_not_verified_error
    else .error invalid_credentials_error

/-- auth.py refresh_access_token: decode; 401 "Invalid refresh token"
on any JWTError, when `username` is absent, or when `type` is not
"refresh"; the `sub` claim is read but its absence is not checked.  On
success: a fresh access token from the decoded sub/username, the
presented refresh token echoed back unchanged. -/
def refresh_access_token (cfg : Config) (refresh_token : Token) (now : Nat) :
    Except HTTPError TokenPair :=
  match jwtDecode refresh_token now with
  | .error _ => .error invalid_refresh_error
  | .ok payload =>
    match payload.username with
    | none => .error invalid_refresh_error
    | some username =>
      if payload.type = some "refresh" then
        .ok { access_token := create_access_token cfg { sub := payload.sub, username := some username } now,
              refresh_token := refresh_token,
              token_type := "bearer" }
      else .error invalid_refresh_error

/-! ## Claims -/

/-- C10: the email-verification token check and the password-reset
token check are extensionally equal: on every input and at every
decode time they either fail with the same 401 error or succeed with
the same subject. -/
theorem verify_tokens_extensionally_equal :
    ∀ (token : Token) (now : Nat),
      verify_email_token token now = verify_password_reset_token token now :=
  fun _ _ => rfl

/-- C5: evaluating the lifetime module constants with the
environment variable absent does not produce the default (30 minutes
resp. 7 days); `int(None)` raises a TypeError, so the process fails to
start instead. -/
theorem lifetime_env_absent_raises :
    access_token_expire_minutes none
        = Except.error "TypeError: int() argument must be a string, not NoneType" ∧
    refresh_token_expire_days none
        = Except.error "TypeError: int() argument must be a string, not NoneType" :=
  ⟨rfl, rfl⟩

/-- C1 counterexample: a validly-signed, unexpired token of kind
password_reset is accepted by verify_email_token, and a
validly-signed, unexpired token of kind refresh is accepted by
get_current_user — neither rejects a wrong-kind token. -/
theorem kind_check_absent_cex :
    verify_email_token
        (Token.signed { sub := some "a@x.com", username := none,
                        type := some "password_reset", exp := 1000 }) 0
      = Except.ok "a@x.com" ∧
    get_current_user
        (Token.signed { sub := some "uid-0", username := some "alice",
                        type := some "refresh", exp := 1000 })
        [{ uid := "uid-0", username := "alice", email := "a@x.com",
           hashed_password := "h", is_verified := true }] 0
      = Except.ok { uid := "uid-0", username := "alice", email := "a@x.com",
                    hashed_password := "h", is_verified := true } :=
  ⟨rfl, rfl⟩

/-- C1 amended: verify_email_token and get_current_user do not read
the `type` claim at all: verify_email_token accepts every
validly-signed, unexpired token whose `sub` claim is present,
whatever its kind, and get_current_user accepts every validly-signed,
unexpired token whose `username` claim names an existing user,
whatever its kind. -/
theorem kind_check_absent_amended :
    (∀ (c : Claims) (now : Nat) (s : String),
        now ≤ c.exp → c.sub = some s →
        verify_email_token (Token.signed c) now = Except.ok s) ∧
    (∀ (c : Claims) (now : Nat) (uname : String) (store : List User) (u : User),
        now ≤ c.exp → c.username = some uname → get_by_username store uname = some u →
        get_current_user (Token.signed c) store now = Except.ok u) := by
  constructor
  · intro c now s hexp hsub
    simp [verify_email_token, jwtDecode, Nat.not_lt.mpr hexp, hsub]
  · intro c now uname store u hexp huser hfind
    simp [get_current_user, jwtDecode, Nat.not_lt.mpr hexp, huser, hfind]

/-- C1 amended, witnessed at concrete inputs: a password_reset token
passes verify_email_token and an email_verification token passes
get_current_user. -/
theorem kind_check_absent_amended_witness :
    verify_email_token
        (Token.signed { sub := some "e@x.com", username := none,
                        type := some "password_reset", exp := 5 }) 3
      = Except.ok "e@x.com" ∧
    get_current_user
        (Token.signed { sub := none, username := some "bob",
                        type := some "email_verification", exp := 5 })
        [{ uid := "u1", username := "bob", email := "b@x.com",
           hashed_password := "h", is_verified := false }] 3
      = Except.ok { uid := "u1", username := "bob", email := "b@x.com",
                    hashed_password := "h", is_verified := false } :=
  ⟨kind_check_absent_amended.1 _ 3 _ (by decide) rfl,
   kind_check_absent_amended.2 _ 3 "bob" _ _ (by decide) rfl rfl⟩

/-- C2: a login with an existing identifier but a wrong password and
a login with a nonexistent identifier return the identical
InvalidCredentials outcome — the same 401 status and the same
"Incorrect identifier or password" message, at any times. -/
theorem login_indistinguishable (cfg : Config) (store : List User)
    (f1 f2 : LoginForm) (u : User)
    (h1 : lookup_login_user store f1.username = some u)
    (h2 : verify_password f1.password u.hashed_password = false)
    (h3 : lookup_login_user store f2.username = none) (now1 now2 : Nat) :
    login_for_access_token cfg f1 store now1 = Except.error invalid_credentials_error ∧
    login_for_access_token cfg f2 store now2 = Except.error invalid_credentials_error := by
  constructor
  · simp [login_for_access_token, h1, h2]
  · simp [login_for_access_token, h3]

/-- C2 witnessed: alice exists with password "pw"; logging in as
alice with "wrong" and as absent "mallory" with anything both yield
the identical 401. -/
theorem login_indistinguishable_witness :
    login_for_access_token { accessTokenExpireMinutes := 30, refreshTokenExpireDays := 7 }
        { username := "alice", password := "wrong" }
        [{ uid := "u1", username := "alice", email := "a@x.com",
           hashed_password := get_password_hash "pw", is_verified := true }] 0
      = Except.error invalid_credentials_error ∧
    login_for_access_token { accessTokenExpireMinutes := 30, refreshTokenExpireDays := 7 }
        { username := "mallory", password := "pw" }
        [{ uid := "u1", username := "alice", email := "a@x.com",
           hashed_password := get_password_hash "pw", is_verified := true }] 0
      = Except.error invalid_credentials_error :=
  login_indistinguishable _ _ _ _
    { uid := "u1", username := "alice", email := "a@x.com",
      hashed_password := get_password_hash "pw", is_verified := true }
    (by decide) (by decide) (by decide) 0 0

/-- C6: the credential-hash verification is total with a Boolean
result, and on any hash string the configured scheme cannot parse it
returns false rather than raising. -/
theorem verify_password_malformed_false (p h : String)
    (hm : isWellFormedHash h = false) : verify_password p h = false := by
  unfold isWellFormedHash at hm
  unfold verify_password
  match hp : parseHash h with
  | some pr => rw [hp] at hm; simp at hm
  | none => rfl

/-- C6 witnessed: verifying any password against the malformed hash
"garbage" returns false. -/
theorem verify_password_malformed_false_witness :
    isWellFormedHash "garbage" = false ∧ verify_password "pw" "garbage" = false :=
  ⟨by decide, verify_password_malformed_false "pw" "garbage" (by decide)⟩

/-- Looking an email up after save_verified finds the same user with
the verified flag set. -/
theorem get_by_email_save_verified (store : List User) (email : String) :
    get_by_email (save_verified store email) email
      = (get_by_email store email).map (fun u => { u with is_verified := true }) := by
  induction store with
  | nil => rfl
  | cons u rest ih =>
    by_cases h : (u.email == email) = true
    · simp [get_by_email, save_verified, h, List.find?]
    · simp only [get_by_email, save_verified] at ih ⊢
      rw [if_neg h]
      simp [List.find?, h, ih]

/-- Setting the verified flag twice is the same as setting it once. -/
theorem save_verified_idem (store : List User) (email : String) :
    save_verified (save_verified store email) email = save_verified store email := by
  induction store with
  | nil => rfl
  | cons u rest ih =>
    by_cases h : (u.email == email) = true
    · simp [save_verified, h]
    · simp [save_verified, h, ih]

/-- C9: email verification is idempotent: with a verification token
decoding to the email of an existing user, the first call returns the
success message and sets the user's verified flag, and a second call
with the same still-valid token returns the success message again and
leaves the store unchanged (verified stays true). -/
theorem verify_email_idempotent (token : Token) (store : List User)
    (now1 now2 : Nat) (email : String) (u : User)
    (h1 : verify_email_token token now1 = Except.ok email)
    (h2 : verify_email_token token now2 = Except.ok email)
    (h3 : get_by_email store email = some u) :
    (verify_email token store now1).response = Except.ok email_verified_message ∧
    (verify_email token ((verify_email token store now1).store) now2).response
        = Except.ok email_verified_message ∧
    (verify_email token ((verify_email token store now1).store) now2).store
        = (verify_email token store now1).store ∧
    ∃ v : User, get_by_email ((verify_email token store now1).store) email = some v ∧
        v.is_verified = true := by
  have hstore1 : (verify_email token store now1).store = save_verified store email := by
    simp [verify_email, h1, h3]
  have hget1 : get_by_email (save_verified store email) email
      = some { u with is_verified := true } := by
    rw [get_by_email_save_verified, h3]; rfl
  refine ⟨?_, ?_, ?_, ?_⟩
  · simp [verify_email, h1, h3]
  · rw [hstore1]; simp [verify_email, h2, hget1]
  · rw [hstore1]; simp [verify_email, h2, hget1, save_verified_idem]
  · exact ⟨{ u with is_verified := true }, by rw [hstore1, hget1], rfl⟩

/-- C9 witnessed: verifying alice's fresh verification token twice:
success both times, flag true, second call a no-op on the store. -/
theorem verify_email_idempotent_witness :
    (verify_email
        (Token.signed { sub := some "a@x.com", username := none,
                        type := some "email_verification", exp := 100 })
        [{ uid := "u1", username := "alice", email := "a@x.com",
           hashed_password := "h", is_verified := false }] 0).response
      = Except.ok email_verified_message ∧
    (verify_email
        (Token.signed { sub := some "a@x.com", username := none,
                        type := some "email_verification", exp := 100 })
        ((verify_email
            (Token.signed { sub := some "a@x.com", username := none,
                            type := some "email_verification", exp := 100 })
            [{ uid := "u1", username := "alice", email := "a@x.com",
               hashed_password := "h", is_verified := false }] 0).store) 0).response
      = Except.ok email_verified_message ∧
    (verify_email
        (Token.signed { sub := some "a@x.com", username := none,
                        type := some "email_verification", exp := 100 })
        ((verify_email
            (Token.signed { sub := some "a@x.com", username := none,
                            type := some "email_verification", exp := 100 })
            [{ uid := "u1", username := "alice", email := "a@x.com",
               hashed_password := "h", is_verified := false }] 0).store) 0).store
      = (verify_email
            (Token.signed { sub := some "a@x.com", username := none,
                            type := some "email_verification", exp := 100 })
            [{ uid := "u1", username := "alice", email := "a@x.com",
               hashed_password := "h", is_verified := false }] 0).store ∧
    ∃ v : User,
      get_by_email
          ((verify_email
              (Token.signed { sub := some "a@x.com", username := none,
                              type := some "email_verification", exp := 100 })
              [{ uid := "u1", username := "alice", email := "a@x.com",
                 hashed_password := "h", is_verified := false }] 0).store) "a@x.com"
        = some v ∧ v.is_verified = true :=
  verify_email_idempotent _ _ 0 0 "a@x.com"
    { uid := "u1", username := "alice", email := "a@x.com",
      hashed_password := "h", is_verified := false } rfl rfl rfl

/-- C3: when the username is free but the email is already taken,
registration returns the same success response (same message, echoed
email) a genuinely successful registration returns, creates no user,
and dispatches a warning email to that address instead of a
verification email. -/
theorem register_email_taken_silent (form : RegistrationForm) (store : List User)
    (now : Nat) (u : User)
    (h1 : get_by_username store form.username = none)
    (h2 : get_by_email store form.email = some u) :
    (register_user form store now).response
        = Except.ok { message := registration_success_message, email := form.email } ∧
    (register_user form store now).store = store ∧
    (register_user form store now).sent = [SentEmail.warning form.email form.username] ∧
    (∀ (form2 : RegistrationForm) (store2 : List User) (now2 : Nat),
        get_by_username store2 form2.username = none →
        get_by_email store2 form2.email = none →
        (register_user form2 store2 now2).response
          = Except.ok { message := registration_success_message, email := form2.email }) := by
  refine ⟨?_, ?_, ?_, ?_⟩
  · simp [register_user, h1, h2]
  · simp [register_user, h1, h2]
  · simp [register_user, h1, h2]
  · intro form2 store2 now2 g1 g2
    simp [register_user, g1, g2]

/-- C3 witnessed: registering bob with alice's email succeeds with
the standard message, leaves the store unchanged and sends only a
warning; a genuine registration on an empty store returns the same
message. -/
theorem register_email_taken_silent_witness :
    (register_user { username := "bob", email := "a@x.com", password := "pw3" }
        [{ uid := "u1", username := "alice", email := "a@x.com",
           hashed_password := "h", is_verified := true }] 0).response
      = Except.ok { message := registration_success_message, email := "a@x.com" } ∧
    (register_user { username := "bob", email := "a@x.com", password := "pw3" }
        [{ uid := "u1", username := "alice", email := "a@x.com",
           hashed_password := "h", is_verified := true }] 0).store
      = [{ uid := "u1", username := "alice", email := "a@x.com",
           hashed_password := "h", is_verified := true }] ∧
    (register_user { username := "bob", email := "a@x.com", password := "pw3" }
        [{ uid := "u1", username := "alice", email := "a@x.com",
           hashed_password := "h", is_verified := true }] 0).sent
      = [SentEmail.warning "a@x.com" "bob"] ∧
    (register_user { username := "carol", email := "c@x.com", password := "pw" } [] 0).response
      = Except.ok { message := registration_success_message, email := "c@x.com" } := by
  have h := register_email_taken_silent
    { username := "bob", email := "a@x.com", password := "pw3" }
    [{ uid := "u1", username := "alice", email := "a@x.com",
       hashed_password := "h", is_verified := true }] 0
    { uid := "u1", username := "alice", email := "a@x.com",
      hashed_password := "h", is_verified := true } rfl rfl
  exact ⟨h.1, h.2.1, h.2.2.1, h.2.2.2 _ [] 0 rfl rfl⟩

/-- C4 counterexample: a validly-signed, unexpired token of kind
refresh whose `sub` claim is absent is accepted by the refresh
handler (it returns a fresh token pair), contradicting the claim that
a missing `sub` fails with a 401. -/
theorem refresh_missing_sub_cex :
    refresh_access_token { accessTokenExpireMinutes := 30, refreshTokenExpireDays := 7 }
        (Token.signed { sub := none, username := some "alice",
                        type := some "refresh", exp := 1000 }) 0
      = Except.ok
          { access_token := Token.signed { sub := none, username := some "alice",
                                           type := some "access", exp := 1800 },
            refresh_token := Token.signed { sub := none, username := some "alice",
                                            type := some "refresh", exp := 1000 },
            token_type := "bearer" } :=
  rfl

/-- C4 amended: the refresh handler rejects (401) a token whose
`username` claim is absent or whose `type` claim is not "refresh",
but does not check `sub`: an unexpired, validly-signed token with
`username` present and kind refresh is accepted even when `sub` is
absent, the new access token then carrying the absent `sub`
unchanged. -/
theorem refresh_claim_checks_amended (cfg : Config) (c : Claims) (now : Nat)
    (hexp : now ≤ c.exp) :
    (c.username = none →
        refresh_access_token cfg (Token.signed c) now = Except.error invalid_refresh_error) ∧
    (c.type ≠ some "refresh" →
        refresh_access_token cfg (Token.signed c) now = Except.error invalid_refresh_error) ∧
    (∀ uname, c.username = some uname → c.type = some "refresh" →
        refresh_access_token cfg (Token.signed c) now
          = Except.ok
              { access_token := create_access_token cfg { sub := c.sub, username := some uname } now,
                refresh_token := Token.signed c,
                token_type := "bearer" }) := by
  refine ⟨?_, ?_, ?_⟩
  · intro h
    simp [refresh_access_token, jwtDecode, Nat.not_lt.mpr hexp, h]
  · intro h
    cases hu : c.username <;>
      simp [refresh_access_token, jwtDecode, Nat.not_lt.mpr hexp, hu, h]
  · intro uname h1 h2
    simp [refresh_access_token, jwtDecode, Nat.not_lt.mpr hexp, h1, h2]

/-- C4 amended, witnessed: a refresh token without `username` is
rejected, one of kind access is rejected, and one without `sub` but
with `username` and kind refresh is accepted. -/
theorem refresh_claim_checks_amended_witness :
    refresh_access_token { accessTokenExpireMinutes := 30, refreshTokenExpireDays := 7 }
        (Token.signed { sub := some "s", username := none,
                        type := some "refresh", exp := 10 }) 0
      = Except.error invalid_refresh_error ∧
    refresh_access_token { accessTokenExpireMinutes := 30, refreshTokenExpireDays := 7 }
        (Token.signed { sub := some "s", username := some "al",
                        type := some "access", exp := 10 }) 0
      = Except.error invalid_refresh_error ∧
    refresh_access_token { accessTokenExpireMinutes := 30, refreshTokenExpireDays := 7 }
        (Token.signed { sub := none, username := some "al",
                        type := some "refresh", exp := 10 }) 0
      = Except.ok
          { access_token := Token.signed { sub := none, username := some "al",
                                           type := some "access", exp := 1800 },
            refresh_token := Token.signed { sub := none, username := some "al",
                                            type := some "refresh", exp := 10 },
            token_type := "bearer" } :=
  ⟨(refresh_claim_checks_amended _ _ 0 (by decide)).1 rfl,
   (refresh_claim_checks_amended _ _ 0 (by decide)).2.1 (by decide),
   (refresh_claim_checks_amended _ _ 0 (by decide)).2.2 "al" rfl rfl⟩

/-- C7: a valid refresh request (validly-signed, unexpired, kind
refresh, `username` present) returns the presented refresh token
itself, byte-for-byte unchanged, together with a newly issued access
token carrying the same `sub` and `username` claims. -/
theorem refresh_echoes_token (cfg : Config) (c : Claims) (now : Nat) (uname : String)
    (hexp : now ≤ c.exp) (huser : c.username = some uname) (hty : c.type = some "refresh") :
    refresh_access_token cfg (Token.signed c) now
      = Except.ok
          { access_token :=
              Token.signed { sub := c.sub, username := some uname, type := some "access",
                             exp := now + cfg.accessTokenExpireMinutes * 60 },
            refresh_token := Token.signed c,
            token_type := "bearer" } := by
  simp [refresh_access_token, jwtDecode, Nat.not_lt.mpr hexp, huser, hty,
    create_access_token, create_token]

/-- C7 witnessed: refreshing alice's valid refresh token echoes it
unchanged and issues an access token with her `sub` and `username`. -/
theorem refresh_echoes_token_witness :
    refresh_access_token { accessTokenExpireMinutes := 30, refreshTokenExpireDays := 7 }
        (Token.signed { sub := some "u1", username := some "alice",
                        type := some "refresh", exp := 604800 }) 60
      = Except.ok
          { access_token := Token.signed { sub := some "u1", username := some "alice",
                                           type := some "access", exp := 1860 },
            refresh_token := Token.signed { sub := some "u1", username := some "alice",
                                            type := some "refresh", exp := 604800 },
            token_type := "bearer" } :=
  refresh_echoes_token _ _ 60 "alice" (by decide) rfl rfl

/-- C8: a token created at time `issued` with lifetime `delta` and
kind `kind` decodes successfully (to exactly its claims, kind
included) at any time up to and including `issued + delta` — in
particular immediately after issuance — and is rejected as expired at
every later time, with no grace window. -/
theorem token_expiry_boundary (data : Payload) (delta : Nat) (kind : String)
    (issued t : Nat) :
    (t ≤ issued + delta →
        jwtDecode (create_token data delta kind issued) t
          = Except.ok { sub := data.sub, username := data.username,
                        type := some kind, exp := issued + delta }) ∧
    (issued + delta < t →
        jwtDecode (create_token data delta kind issued) t
          = Except.error JWTError.expiredSignature) := by
  constructor
  · intro h
    simp [jwtDecode, create_token, Nat.not_lt.mpr h]
  · intro h
    simp [jwtDecode, create_token, h]

/-- C8 witnessed: a token issued at 5 with lifetime 10 decodes at 15
and is rejected at 16, one second past expiry. -/
theorem token_expiry_boundary_witness :
    jwtDecode (create_token { sub := some "s", username := some "al" } 10 "access" 5) 15
      = Except.ok { sub := some "s", username := some "al",
                    type := some "access", exp := 15 } ∧
    jwtDecode (create_token { sub := some "s", username := some "al" } 10 "access" 5) 16
      = Except.error JWTError.expiredSignature :=
  ⟨(token_expiry_boundary { sub := some "s", username := some "al" } 10 "access" 5 15).1
      (by decide),
   (token_expiry_boundary { sub := some "s", username := some "al" } 10 "access" 5 16).2
      (by decide)⟩
